import Mathlib

/-!
Shallow embedding of the BlackPetaOS installer script (src/installer.py).

The script drives the external archinstall library. We model each library
call the script issues as an `Event`, and the script as the trace of events
it issues, as a function of the configuration bag `archinstall.arguments`
collected by the interactive menu (modelled by `Config`) and of the
environment facts the script queries (modelled by `Env`). The external
library types are modelled only down to the fields the script actually
reads or passes along.
-/

namespace InstallerScript

/-- Disk layout kinds from the external library; the script only compares
against `Pre_mount`. -/
inductive DiskLayoutType where
  | Default
  | Manual
  | Pre_mount
  deriving DecidableEq

/-- Slice of the external `DiskLayoutConfiguration` that the script reads. -/
structure DiskLayoutConfiguration where
  config_type : DiskLayoutType
  deriving DecidableEq

/-- Encryption kinds; the script only tests against `NoEncryption`. -/
inductive EncryptionType where
  | NoEncryption
  | Luks
  deriving DecidableEq

/-- Slice of the external `DiskEncryption` that the script reads. -/
structure DiskEncryption where
  encryption_type : EncryptionType
  deriving DecidableEq

/-- Slice of the external `LocaleConfiguration`: the script reads
`kb_layout` and passes the whole object along. -/
structure LocaleConfiguration where
  kb_layout : String
  sys_lang : String
  deriving DecidableEq

/-- Signature-check levels for a custom mirror (external library). -/
inductive SignCheck where
  | Never
  | CheckOptional
  | Required
  deriving DecidableEq

/-- Signature options for a custom mirror (external library). -/
inductive SignOption where
  | TrustedOnly
  | TrustAll
  deriving DecidableEq

/-- A custom mirror record as constructed at src/installer.py lines 111-116. -/
structure CustomMirror where
  name : String
  url : String
  sign_check : SignCheck
  sign_option : SignOption
  deriving DecidableEq

/-- Slice of the external `MirrorConfiguration` that the script reads. -/
structure MirrorConfiguration where
  mirror_regions : List String
  custom_mirrors : List CustomMirror
  deriving DecidableEq

/-- Bootloaders from the external `models.Bootloader`; the script compares
against `Grub`. -/
inductive Bootloader where
  | Systemd
  | Grub
  | Efistub
  deriving DecidableEq

/-- Slice of the external `User` model: the script reads `username` in the
usermod loop and passes the whole object to `create_users`. The source
field named after the superuser mechanism is rendered `superuser` here. -/
structure User where
  username : String
  superuser : Bool
  deriving DecidableEq

/-- The configuration bag `archinstall.arguments`, restricted to the keys
the script reads. An `Option` field models possible absence of the key
(the script reads it with `.get` and a default); `Bool` fields model keys
whose truthiness alone is tested. `disk_config` and `bootloader` are read
by direct indexing (lines 78 and 175), so they are modelled as present. -/
structure Config where
  disk_config : DiskLayoutConfiguration
  additional_repositories : List String
  locale_config : LocaleConfiguration
  disk_encryption : Option DiskEncryption
  kernels : Option (List String)
  mirror_config : Option MirrorConfiguration
  hostname : Option String
  swap : Bool
  bootloader : Bootloader
  users : Option (List User)
  packages : Option (List String)
  timezone : Option String
  ntp : Bool
  root_password : Option String
  services : Option (List String)
  custom_commands : Option (List String)
  silent : Bool
  deriving DecidableEq

/-- Environment facts the script queries: `SysInfo.has_uefi()` (line 132),
`archinstall.accessibility_tools_in_use()` (line 192), and the answer the
user gives to the final chroot yes/no menu (lines 227-229). -/
structure Env where
  has_uefi : Bool
  accessibility_tools_in_use : Bool
  chroot_choice_yes : Bool
  deriving DecidableEq

/-- One call into the external installer library, as issued by
`perform_installation`. String-overload calls (`add_additional_packages("grub")`)
are kept distinct from list-overload calls. -/
inductive Event where
  | installerCreated (mountpoint : String) (dc : DiskLayoutConfiguration)
      (de : Option DiskEncryption) (kernels : List String)
  | mountOrderedLayout
  | sanityCheck
  | generateKeyFiles
  | useMirrors (regions : List String)
  | addCustomMirrors (ms : List CustomMirror)
  | minimalInstallation (testing : Bool) (multilib : Bool) (hostname : String)
      (lc : LocaleConfiguration)
  | setMirrors (mc : MirrorConfiguration)
  | setupSwap (kind : String)
  | addAdditionalPackagesStr (p : String)
  | addAdditionalPackages (ps : List String)
  | enableService (ss : List String)
  | addBootloader (b : Bootloader)
  | copyIsoNetworkConfig
  | createUsers (us : List User)
  | setTimezone (tz : String)
  | activateTimeSynchronization
  | enableEspeakup
  | userSetPw (user : String) (pw : String)
  | setKeyboardLanguage (kb : String)
  | runCustomUserCommands (cmds : List String)
  | genfstab
  | dropToShell
  deriving DecidableEq

/-- The literal `install_paru` command list (src/installer.py lines 19-23). -/
def install_paru : List String :=
  ["git clone https://aur.archlinux.org/paru.git",
   "cd paru",
   "makepkg -si --noconfirm"]

/-- The Blackarch mirror literal (src/installer.py lines 110-117). -/
def blackarchMirror : CustomMirror :=
  { name := "Blackarch"
    url := "https://www.blackarch.org/blackarch/$repo/os/$arch"
    sign_check := SignCheck.Required
    sign_option := SignOption.TrustAll }

/-- The fixed package list passed unconditionally (src/installer.py lines 137-166). -/
def basePackages : List String :=
  ["neovim", "git", "curl", "wget", "nmap", "gnu-netcat", "base-devel",
   "openssh", "python", "neofetch", "rust", "nodejs", "yarn", "npm", "go",
   "ufw", "python-pip", "blackarch-keyring", "podman", "nginx", "mariadb",
   "postgresql", "cockpit", "cockpit-machines", "cockpit-podman",
   "cockpit-pcp", "cockpit-storaged"]

/-- The fixed service list passed unconditionally (src/installer.py lines 167-173). -/
def baseServices : List String :=
  ["nginx", "mariadb", "postgresql", "cockpit", "sshd"]

/-- Lines 93-95: mount the ordered layout unless the layout is pre-mounted. -/
def mountSeg (cfg : Config) : List Event :=
  if cfg.disk_config.config_type ≠ DiskLayoutType.Pre_mount then
    [Event.mountOrderedLayout]
  else []

/-- Lines 99-102: generate key files when not pre-mounted, encryption is
configured (truthy) and its type is not `NoEncryption`. -/
def keyFilesSeg (cfg : Config) : List Event :=
  if cfg.disk_config.config_type ≠ DiskLayoutType.Pre_mount then
    match cfg.disk_encryption with
    | some de =>
        if de.encryption_type ≠ EncryptionType.NoEncryption then
          [Event.generateKeyFiles]
        else []
    | none => []
  else []

/-- Lines 104-109: when a mirror configuration exists, use its regions if
non-empty and add its custom mirrors if non-empty. -/
def mirrorSeg (cfg : Config) : List Event :=
  match cfg.mirror_config with
  | some mc =>
      (if mc.mirror_regions ≠ [] then [Event.useMirrors mc.mirror_regions] else [])
        ++ (if mc.custom_mirrors ≠ [] then [Event.addCustomMirrors mc.custom_mirrors] else [])
  | none => []

/-- Lines 126-127: set the mirrors in the installation medium when a mirror
configuration exists. -/
def setMirrorsSeg (cfg : Config) : List Event :=
  match cfg.mirror_config with
  | some mc => [Event.setMirrors mc]
  | none => []

/-- Lines 129-130: set up zram swap when the swap key is truthy. -/
def swapSeg (cfg : Config) : List Event :=
  if cfg.swap then [Event.setupSwap "zram"] else []

/-- Lines 132-133: add the grub package (string overload) for Grub on UEFI. -/
def grubSeg (cfg : Config) (env : Env) : List Event :=
  if cfg.bootloader = Bootloader.Grub ∧ env.has_uefi then
    [Event.addAdditionalPackagesStr "grub"]
  else []

/-- Lines 180-181: create users when the users key is truthy (present and
non-empty). -/
def createUsersSeg (cfg : Config) : List Event :=
  match cfg.users with
  | some us => if us ≠ [] then [Event.createUsers us] else []
  | none => []

/-- Lines 183-184: forward the user-supplied packages when the key is
truthy (present, non-empty list) and its first element is not the empty
string; the whole list is forwarded in that case. -/
def userPackagesSegment (cfg : Config) : List Event :=
  match cfg.packages with
  | some (p :: ps) =>
      if p ≠ "" then [Event.addAdditionalPackages (p :: ps)] else []
  | _ => []

/-- Lines 186-187: set the timezone when the key is truthy (non-empty string). -/
def timezoneSeg (cfg : Config) : List Event :=
  match cfg.timezone with
  | some tz => if tz ≠ "" then [Event.setTimezone tz] else []
  | none => []

/-- Lines 189-190: activate time synchronization when the ntp key is truthy. -/
def ntpSeg (cfg : Config) : List Event :=
  if cfg.ntp then [Event.activateTimeSynchronization] else []

/-- Lines 192-193: enable espeakup when accessibility tools are in use. -/
def espeakupSeg (env : Env) : List Event :=
  if env.accessibility_tools_in_use then [Event.enableEspeakup] else []

/-- Lines 195-196: set the root password when present and of non-zero length. -/
def rootPasswordSeg (cfg : Config) : List Event :=
  match cfg.root_password with
  | some pw => if pw ≠ "" then [Event.userSetPw "root" pw] else []
  | none => []

/-- Lines 204-205: enable the user-supplied services when the key is truthy. -/
def servicesSeg (cfg : Config) : List Event :=
  match cfg.services with
  | some ss => if ss ≠ [] then [Event.enableService ss] else []
  | none => []

/-- Lines 208-220: the post-install custom command calls: the paru install
list, the mariadb initialization, one usermod command per configured user
(computed from the username by an f-string), the postgres initdb command,
and the user-supplied custom-commands list when truthy. -/
def userCommandsSeg (cfg : Config) : List Event :=
  [Event.runCustomUserCommands install_paru]
    ++ [Event.runCustomUserCommands
          ["mariadb-install-db --user=mysql --basedir=/usr --datadir=/var/lib/mysql"]]
    ++ (cfg.users.getD []).map
        (fun u => Event.runCustomUserCommands ["usermod -a -G docker " ++ u.username])
    ++ [Event.runCustomUserCommands ["sudo -u postgres initdb -D /var/lib/postgres/data"]]
    ++ (match cfg.custom_commands with
        | some cc => if cc ≠ [] then [Event.runCustomUserCommands cc] else []
        | none => [])

/-- Lines 226-233: unless silent, ask the chroot question; on yes, drop to a
shell (the call is wrapped in try/except by the source). -/
def chrootSeg (cfg : Config) (env : Env) : List Event :=
  if cfg.silent then []
  else if env.chroot_choice_yes then [Event.dropToShell] else []

/-- Trace of library calls issued by `perform_installation`
(src/installer.py lines 71-235), in source order, paired with the final
state of the argument bag. The source only reads `archinstall.arguments`,
so the bag is returned unchanged. -/
def performInstallation (mountpoint : String) (cfg : Config) (env : Env) :
    List Event × Config :=
  ([Event.installerCreated mountpoint cfg.disk_config cfg.disk_encryption
      (cfg.kernels.getD ["linux-hardened"])]
    ++ mountSeg cfg
    ++ [Event.sanityCheck]
    ++ keyFilesSeg cfg
    ++ mirrorSeg cfg
    ++ [Event.addCustomMirrors [blackarchMirror]]
    ++ [Event.minimalInstallation (cfg.additional_repositories.contains "testing")
          (cfg.additional_repositories.contains "multilib")
          (cfg.hostname.getD "archlinux") cfg.locale_config]
    ++ setMirrorsSeg cfg
    ++ swapSeg cfg
    ++ grubSeg cfg env
    ++ [Event.addAdditionalPackages basePackages, Event.enableService baseServices]
    ++ [Event.addBootloader cfg.bootloader, Event.copyIsoNetworkConfig]
    ++ createUsersSeg cfg
    ++ userPackagesSegment cfg
    ++ timezoneSeg cfg
    ++ ntpSeg cfg
    ++ espeakupSeg env
    ++ rootPasswordSeg cfg
    ++ [Event.setKeyboardLanguage cfg.locale_config.kb_layout]
    ++ servicesSeg cfg
    ++ userCommandsSeg cfg
    ++ [Event.genfstab]
    ++ chrootSeg cfg env,
   cfg)

/-- A top-level action of the script: a menu-configuration action from
`ask_user_questions`, the menu run itself, the filesystem-preparation call
on `fs_handler`, or an installation-phase library call. -/
inductive TopEvent where
  | menuEnable (entry : String) (mandatory : Bool)
  | menuRun
  | fsPerform (dc : DiskLayoutConfiguration) (de : Option DiskEncryption)
  | install (e : Event)
  deriving DecidableEq

/-- The actions of `ask_user_questions` (src/installer.py lines 26-68), in
source order: the `global_menu.enable` calls with their mandatory flags,
then `global_menu.run()`. -/
def askUserQuestionsEvents : List TopEvent :=
  [TopEvent.menuEnable "archinstall-language" false,
   TopEvent.menuEnable "mirror_config" false,
   TopEvent.menuEnable "locale_config" false,
   TopEvent.menuEnable "disk_config" true,
   TopEvent.menuEnable "disk_encryption" false,
   TopEvent.menuEnable "bootloader" false,
   TopEvent.menuEnable "hostname" false,
   TopEvent.menuEnable "!root-password" true,
   TopEvent.menuEnable "!users" true,
   TopEvent.menuEnable "packages" false,
   TopEvent.menuEnable "parallel downloads" false,
   TopEvent.menuEnable "timezone" false,
   TopEvent.menuEnable "ntp" false,
   TopEvent.menuEnable "additional-repositories" false,
   TopEvent.menuEnable "__separator__" false,
   TopEvent.menuEnable "install" false,
   TopEvent.menuEnable "save_config" false,
   TopEvent.menuEnable "abort" false,
   TopEvent.menuRun]

/-- The names of the menu entries that `ask_user_questions` enables. -/
def enabledMenuEntryNames : List String :=
  askUserQuestionsEvents.filterMap fun e =>
    match e with
    | TopEvent.menuEnable entry _ => some entry
    | _ => none

/-- The menu-entry list exactly as the claim under examination words it:
disk configuration, mirrors, locale, disk encryption, bootloader, hostname,
root password, users, packages, parallel downloads, timezone, NTP, and
additional repositories. This definition follows the claim text, to be
compared with `enabledMenuEntryNames`, which follows the source. -/
def specClaimedMenuEntries : List String :=
  ["disk_config", "mirror_config", "locale_config", "disk_encryption",
   "bootloader", "hostname", "!root-password", "!users", "packages",
   "parallel downloads", "timezone", "ntp", "additional-repositories"]

/-- The whole script (src/installer.py lines 238-247): run the menu, then
prepare the filesystem through `fs_handler`, then perform the installation
at the mount point. -/
def script (mountpoint : String) (cfg : Config) (env : Env) : List TopEvent :=
  askUserQuestionsEvents
    ++ [TopEvent.fsPerform cfg.disk_config cfg.disk_encryption]
    ++ (performInstallation mountpoint cfg env).1.map TopEvent.install

/-- Phase rank of a top-level action: configuration capture (0), filesystem
preparation (1), installation (2). -/
def topPhase : TopEvent → Nat
  | TopEvent.menuEnable _ _ => 0
  | TopEvent.menuRun => 0
  | TopEvent.fsPerform _ _ => 1
  | TopEvent.install _ => 2

/-- Execution of a planned call sequence against a failure oracle `fails`.
Each call is issued in order; a failing call is recorded and its exception
propagates immediately (result `some e`), except `drop_to_shell`, whose
call site is wrapped in try/except in the source (lines 230-233), so its
failure is swallowed and execution continues. `none` means the run
completed normally. -/
def runCalls (fails : Event → Bool) : List Event → List Event × Option Event
  | [] => ([], none)
  | e :: rest =>
      if fails e then
        if e = Event.dropToShell then
          let r := runCalls fails rest
          (e :: r.1, r.2)
        else ([e], some e)
      else
        let r := runCalls fails rest
        (e :: r.1, r.2)

/-- The argument lists of all `run_custom_user_commands` calls in a trace,
in order. -/
def commandLists (t : List Event) : List (List String) :=
  t.filterMap fun e =>
    match e with
    | Event.runCustomUserCommands cmds => some cmds
    | _ => none

/-- A concrete sample configuration used to instantiate theorems with
hypotheses on explicit inputs. -/
def sampleConfig : Config :=
  { disk_config := { config_type := DiskLayoutType.Default }
    additional_repositories := []
    locale_config := { kb_layout := "us", sys_lang := "en_US" }
    disk_encryption := none
    kernels := none
    mirror_config := none
    hostname := none
    swap := false
    bootloader := Bootloader.Systemd
    users := some [{ username := "alice", superuser := true }]
    packages := some ["", "vim"]
    timezone := none
    ntp := false
    root_password := none
    services := none
    custom_commands := none
    silent := false }

/-- A concrete sample environment. -/
def sampleEnv : Env :=
  { has_uefi := false
    accessibility_tools_in_use := false
    chroot_choice_yes := true }

/-- A failure oracle under which only `drop_to_shell` raises. -/
def onlyDropFails : Event → Bool :=
  fun e => decide (e = Event.dropToShell)

/-- A failure oracle under which only `sanity_check` raises. -/
def onlySanityFails : Event → Bool :=
  fun e => decide (e = Event.sanityCheck)

theorem commandLists_append (a b : List Event) :
    commandLists (a ++ b) = commandLists a ++ commandLists b := by
  simp [commandLists]

theorem commandLists_mountSeg (cfg : Config) : commandLists (mountSeg cfg) = [] := by
  unfold mountSeg
  split <;> rfl

theorem commandLists_keyFilesSeg (cfg : Config) : commandLists (keyFilesSeg cfg) = [] := by
  unfold keyFilesSeg
  repeat' split
  all_goals rfl

theorem commandLists_mirrorSeg (cfg : Config) : commandLists (mirrorSeg cfg) = [] := by
  unfold mirrorSeg
  split
  · rw [commandLists_append]
    repeat' split
    all_goals rfl
  · rfl

theorem commandLists_setMirrorsSeg (cfg : Config) : commandLists (setMirrorsSeg cfg) = [] := by
  unfold setMirrorsSeg
  split <;> rfl

theorem commandLists_swapSeg (cfg : Config) : commandLists (swapSeg cfg) = [] := by
  unfold swapSeg
  split <;> rfl

theorem commandLists_grubSeg (cfg : Config) (env : Env) :
    commandLists (grubSeg cfg env) = [] := by
  unfold grubSeg
  split <;> rfl

theorem commandLists_createUsersSeg (cfg : Config) :
    commandLists (createUsersSeg cfg) = [] := by
  unfold createUsersSeg
  repeat' split
  all_goals rfl

theorem commandLists_userPackagesSegment (cfg : Config) :
    commandLists (userPackagesSegment cfg) = [] := by
  unfold userPackagesSegment
  repeat' split
  all_goals rfl

theorem commandLists_timezoneSeg (cfg : Config) : commandLists (timezoneSeg cfg) = [] := by
  unfold timezoneSeg
  repeat' split
  all_goals rfl

theorem commandLists_ntpSeg (cfg : Config) : commandLists (ntpSeg cfg) = [] := by
  unfold ntpSeg
  split <;> rfl

theorem commandLists_espeakupSeg (env : Env) : commandLists (espeakupSeg env) = [] := by
  unfold espeakupSeg
  split <;> rfl

theorem commandLists_rootPasswordSeg (cfg : Config) :
    commandLists (rootPasswordSeg cfg) = [] := by
  unfold rootPasswordSeg
  repeat' split
  all_goals rfl

theorem commandLists_servicesSeg (cfg : Config) : commandLists (servicesSeg cfg) = [] := by
  unfold servicesSeg
  repeat' split
  all_goals rfl

theorem commandLists_chrootSeg (cfg : Config) (env : Env) :
    commandLists (chrootSeg cfg env) = [] := by
  unfold chrootSeg
  repeat' split
  all_goals rfl

theorem commandLists_usermodMap (us : List User) :
    commandLists (us.map
      (fun u => Event.runCustomUserCommands ["usermod -a -G docker " ++ u.username]))
      = us.map (fun u => ["usermod -a -G docker " ++ u.username]) := by
  induction us with
  | nil => rfl
  | cons u us ih =>
      simp only [List.map_cons, commandLists, List.filterMap_cons] at *
      rw [ih]

theorem commandLists_userCommandsSeg (cfg : Config) :
    commandLists (userCommandsSeg cfg) =
      [install_paru,
       ["mariadb-install-db --user=mysql --basedir=/usr --datadir=/var/lib/mysql"]]
      ++ (cfg.users.getD []).map (fun u => ["usermod -a -G docker " ++ u.username])
      ++ [["sudo -u postgres initdb -D /var/lib/postgres/data"]]
      ++ (match cfg.custom_commands with
          | some cc => if cc ≠ [] then [cc] else []
          | none => []) := by
  unfold userCommandsSeg
  rw [commandLists_append, commandLists_append, commandLists_append,
    commandLists_append, commandLists_usermodMap]
  congr 1
  split
  · split <;> rfl
  · rfl

theorem commandLists_nil : commandLists [] = [] := rfl

theorem commandLists_cons_installerCreated (mp : String) (dc : DiskLayoutConfiguration)
    (de : Option DiskEncryption) (ks : List String) (t : List Event) :
    commandLists (Event.installerCreated mp dc de ks :: t) = commandLists t := rfl

theorem commandLists_cons_sanityCheck (t : List Event) :
    commandLists (Event.sanityCheck :: t) = commandLists t := rfl

theorem commandLists_cons_addCustomMirrors (ms : List CustomMirror) (t : List Event) :
    commandLists (Event.addCustomMirrors ms :: t) = commandLists t := rfl

theorem commandLists_cons_minimalInstallation (a b : Bool) (h : String)
    (lc : LocaleConfiguration) (t : List Event) :
    commandLists (Event.minimalInstallation a b h lc :: t) = commandLists t := rfl

theorem commandLists_cons_addAdditionalPackages (ps : List String) (t : List Event) :
    commandLists (Event.addAdditionalPackages ps :: t) = commandLists t := rfl

theorem commandLists_cons_enableService (ss : List String) (t : List Event) :
    commandLists (Event.enableService ss :: t) = commandLists t := rfl

theorem commandLists_cons_addBootloader (b : Bootloader) (t : List Event) :
    commandLists (Event.addBootloader b :: t) = commandLists t := rfl

theorem commandLists_cons_copyIsoNetworkConfig (t : List Event) :
    commandLists (Event.copyIsoNetworkConfig :: t) = commandLists t := rfl

theorem commandLists_cons_setKeyboardLanguage (kb : String) (t : List Event) :
    commandLists (Event.setKeyboardLanguage kb :: t) = commandLists t := rfl

theorem commandLists_cons_genfstab (t : List Event) :
    commandLists (Event.genfstab :: t) = commandLists t := rfl

/-- C7: `perform_installation` only reads the argument bag
`archinstall.arguments`; the bag it returns is the bag it was given, for
every configuration, mount point and environment, so the configuration
collected in phase one is unchanged by the installation phase. -/
theorem arguments_unmodified (mountpoint : String) (cfg : Config) (env : Env) :
    (performInstallation mountpoint cfg env).2 = cfg := rfl

/-- C8: in every run, `perform_installation` adds the Blackarch custom
mirror (url with repo and arch variables, signature check Required, sign
option TrustAll) through `add_custom_mirrors`, whatever the mirror
configuration is. -/
theorem blackarch_mirror_always_added (mountpoint : String) (cfg : Config) (env : Env) :
    Event.addCustomMirrors
      [{ name := "Blackarch"
         url := "https://www.blackarch.org/blackarch/$repo/os/$arch"
         sign_check := SignCheck.Required
         sign_option := SignOption.TrustAll }] ∈
      (performInstallation mountpoint cfg env).1 := by
  simp [performInstallation, blackarchMirror]

/-- C2: for every configuration, the fixed 27-element package list is
passed to `add_additional_packages`, immediately followed by the fixed
five-element service list passed to `enable_service`, in that order. -/
theorem fixed_packages_services_passed (mountpoint : String) (cfg : Config) (env : Env) :
    ∃ l1 l2, (performInstallation mountpoint cfg env).1 =
      l1 ++ Event.addAdditionalPackages
          ["neovim", "git", "curl", "wget", "nmap", "gnu-netcat", "base-devel",
           "openssh", "python", "neofetch", "rust", "nodejs", "yarn", "npm", "go",
           "ufw", "python-pip", "blackarch-keyring", "podman", "nginx", "mariadb",
           "postgresql", "cockpit", "cockpit-machines", "cockpit-podman",
           "cockpit-pcp", "cockpit-storaged"] ::
        Event.enableService ["nginx", "mariadb", "postgresql", "cockpit", "sshd"] ::
        l2 := by
  refine ⟨[Event.installerCreated mountpoint cfg.disk_config cfg.disk_encryption
      (cfg.kernels.getD ["linux-hardened"])]
      ++ mountSeg cfg ++ [Event.sanityCheck] ++ keyFilesSeg cfg ++ mirrorSeg cfg
      ++ [Event.addCustomMirrors [blackarchMirror]]
      ++ [Event.minimalInstallation (cfg.additional_repositories.contains "testing")
            (cfg.additional_repositories.contains "multilib")
            (cfg.hostname.getD "archlinux") cfg.locale_config]
      ++ setMirrorsSeg cfg ++ swapSeg cfg ++ grubSeg cfg env,
    [Event.addBootloader cfg.bootloader, Event.copyIsoNetworkConfig]
      ++ createUsersSeg cfg ++ userPackagesSegment cfg ++ timezoneSeg cfg
      ++ ntpSeg cfg ++ espeakupSeg env ++ rootPasswordSeg cfg
      ++ [Event.setKeyboardLanguage cfg.locale_config.kb_layout]
      ++ servicesSeg cfg ++ userCommandsSeg cfg ++ [Event.genfstab]
      ++ chrootSeg cfg env, ?_⟩
  simp [performInstallation, basePackages, baseServices]

/-- C10: when the kernels key is absent from the configuration, the
Installer is constructed with the single default kernel linux-hardened. -/
theorem default_kernels_linux_hardened (mountpoint : String) (cfg : Config) (env : Env)
    (h : cfg.kernels = none) :
    ((performInstallation mountpoint cfg env).1).head? =
      some (Event.installerCreated mountpoint cfg.disk_config cfg.disk_encryption
        ["linux-hardened"]) := by
  simp [performInstallation, h]

/-- Witness for C10 at a concrete configuration without a kernels entry. -/
theorem default_kernels_linux_hardened_witness :
    sampleConfig.kernels = none ∧
      ((performInstallation "/mnt" sampleConfig sampleEnv).1).head? =
        some (Event.installerCreated "/mnt" sampleConfig.disk_config
          sampleConfig.disk_encryption ["linux-hardened"]) :=
  ⟨rfl, default_kernels_linux_hardened "/mnt" sampleConfig sampleEnv rfl⟩

/-- C9: the user-supplied packages are forwarded to
`add_additional_packages` exactly when the packages entry is present,
non-empty, and its first element is not the empty string; when they are
forwarded the whole list is forwarded, so a first element equal to the
empty string silently skips every user-supplied package. -/
theorem user_packages_forwarded_iff (cfg : Config) :
    (userPackagesSegment cfg ≠ [] ↔
        ∃ p ps, cfg.packages = some (p :: ps) ∧ p ≠ "") ∧
      (userPackagesSegment cfg = [] ∨
        userPackagesSegment cfg =
          [Event.addAdditionalPackages (cfg.packages.getD [])]) := by
  unfold userPackagesSegment
  rcases hp : cfg.packages with _ | l
  · simp
  · rcases l with _ | ⟨p, ps⟩
    · simp
    · by_cases h : p = "" <;> simp [h]

/-- C1 counterexample: the script enables the archinstall-language menu
entry, which is outside the claimed thirteen-entry list, so the enabled
entries are not exactly the claimed list. -/
theorem menu_entries_claim_false :
    "archinstall-language" ∈ enabledMenuEntryNames ∧
      "archinstall-language" ∉ specClaimedMenuEntries := by decide

/-- C1 amended: `ask_user_questions` enables exactly, and in this order,
the archinstall-language entry, the thirteen configuration entries the
claim lists, the separator, and the install, save_config and abort control
entries, and nothing else. -/
theorem menu_entries_enabled_exact :
    enabledMenuEntryNames =
      ["archinstall-language", "mirror_config", "locale_config", "disk_config",
       "disk_encryption", "bootloader", "hostname", "!root-password", "!users",
       "packages", "parallel downloads", "timezone", "ntp",
       "additional-repositories", "__separator__", "install", "save_config",
       "abort"] := by decide

/-- C3 counterexample: two configurations that differ only in the user
list produce different run_custom_user_commands argument lists, because a
usermod command is computed from each configured username. -/
theorem custom_commands_differ :
    commandLists (performInstallation "/mnt"
        { sampleConfig with users := some [{ username := "alice", superuser := true }] }
        sampleEnv).1 ≠
      commandLists (performInstallation "/mnt"
        { sampleConfig with users := some [{ username := "bob", superuser := true }] }
        sampleEnv).1 := by decide

/-- C3 amended: for every configuration, the post-install command lists
are the fixed literals (the paru install sequence, the mariadb
initialization, the postgres initdb), together with one usermod command
computed from each configured username and the pass-through of a truthy
user-supplied custom-commands entry; so they are identical for any two
configurations agreeing on the users and custom-commands entries, but not
in general. -/
theorem custom_commands_characterization (mountpoint : String) (cfg : Config) (env : Env) :
    commandLists (performInstallation mountpoint cfg env).1 =
      [install_paru,
       ["mariadb-install-db --user=mysql --basedir=/usr --datadir=/var/lib/mysql"]]
      ++ (cfg.users.getD []).map (fun u => ["usermod -a -G docker " ++ u.username])
      ++ [["sudo -u postgres initdb -D /var/lib/postgres/data"]]
      ++ (match cfg.custom_commands with
          | some cc => if cc ≠ [] then [cc] else []
          | none => []) := by
  simp only [performInstallation, List.singleton_append, List.cons_append,
    List.nil_append, commandLists_append, commandLists_cons_installerCreated,
    commandLists_cons_sanityCheck, commandLists_cons_addCustomMirrors,
    commandLists_cons_minimalInstallation, commandLists_cons_addAdditionalPackages,
    commandLists_cons_enableService, commandLists_cons_addBootloader,
    commandLists_cons_copyIsoNetworkConfig, commandLists_cons_setKeyboardLanguage,
    commandLists_cons_genfstab, commandLists_mountSeg, commandLists_keyFilesSeg,
    commandLists_mirrorSeg, commandLists_setMirrorsSeg, commandLists_swapSeg,
    commandLists_grubSeg, commandLists_createUsersSeg,
    commandLists_userPackagesSegment, commandLists_timezoneSeg, commandLists_ntpSeg,
    commandLists_espeakupSeg, commandLists_rootPasswordSeg, commandLists_servicesSeg,
    commandLists_chrootSeg, commandLists_userCommandsSeg, commandLists_nil,
    List.append_nil]

theorem runCalls_complete (fails : Event → Bool) :
    ∀ l : List Event, (∀ e ∈ l, fails e = true → e = Event.dropToShell) →
      runCalls fails l = (l, none) := by
  intro l
  induction l with
  | nil => intro _; rfl
  | cons e rest ih =>
      intro h
      by_cases hf : fails e = true
      · have he := h e (by simp) hf
        simp [runCalls, hf, he, ih (fun x hx => h x (by simp [hx]))]
      · simp [runCalls, hf, ih (fun x hx => h x (by simp [hx]))]

theorem runCalls_first_failure (fails : Event → Bool) :
    ∀ (l1 : List Event) (e : Event) (l2 : List Event),
      (∀ x ∈ l1, fails x = true → x = Event.dropToShell) →
      fails e = true → e ≠ Event.dropToShell →
      runCalls fails (l1 ++ e :: l2) = (l1 ++ [e], some e) := by
  intro l1
  induction l1 with
  | nil =>
      intro e l2 _ he hne
      simp [runCalls, he, hne]
  | cons x xs ih =>
      intro e l2 h he hne
      have hrest := ih e l2 (fun y hy => h y (by simp [hy])) he hne
      by_cases hfx : fails x = true
      · have hxd := h x (by simp) hfx
        simp [runCalls, hfx, hxd, hrest]
      · simp [runCalls, hfx, hrest]

/-- C4: if `drop_to_shell` raises, `perform_installation` swallows the
exception and completes normally: under any failure oracle that makes only
`drop_to_shell` raise, the run issues the entire planned call sequence and
propagates no exception. -/
theorem drop_to_shell_exception_swallowed (mountpoint : String) (cfg : Config)
    (env : Env) (fails : Event → Bool)
    (h : ∀ e, fails e = true → e = Event.dropToShell) :
    runCalls fails (performInstallation mountpoint cfg env).1 =
      ((performInstallation mountpoint cfg env).1, none) :=
  runCalls_complete fails (performInstallation mountpoint cfg env).1
    (fun e _ he => h e he)

/-- Witness for C4: a concrete run in which the chroot question is
answered yes and `drop_to_shell` raises, and the run still completes
normally with the full trace. -/
theorem drop_to_shell_exception_swallowed_witness :
    runCalls onlyDropFails (performInstallation "/mnt" sampleConfig sampleEnv).1 =
      ((performInstallation "/mnt" sampleConfig sampleEnv).1, none) :=
  drop_to_shell_exception_swallowed "/mnt" sampleConfig sampleEnv onlyDropFails
    (fun _ he => of_decide_eq_true he)

/-- C5: except for `drop_to_shell`, a failing library call is not caught:
when the planned call sequence of `perform_installation` splits as
l1 followed by a failing call e (with nothing before e failing except
possibly `drop_to_shell`), the run stops at e, propagates exactly the
exception of e, and issues no further call after it. -/
theorem library_call_failure_propagates (mountpoint : String) (cfg : Config)
    (env : Env) (fails : Event → Bool) (l1 : List Event) (e : Event)
    (l2 : List Event)
    (hsplit : (performInstallation mountpoint cfg env).1 = l1 ++ e :: l2)
    (hbefore : ∀ x ∈ l1, fails x = true → x = Event.dropToShell)
    (he : fails e = true) (hne : e ≠ Event.dropToShell) :
    runCalls fails (performInstallation mountpoint cfg env).1 = (l1 ++ [e], some e) := by
  rw [hsplit]
  exact runCalls_first_failure fails l1 e l2 hbefore he hne

/-- Witness for C5: a concrete run in which `sanity_check` raises; the run
stops right after it and propagates that exception. -/
theorem library_call_failure_propagates_witness :
    runCalls onlySanityFails (performInstallation "/mnt" sampleConfig sampleEnv).1 =
      ([Event.installerCreated "/mnt" sampleConfig.disk_config
          sampleConfig.disk_encryption ["linux-hardened"],
        Event.mountOrderedLayout, Event.sanityCheck], some Event.sanityCheck) :=
  library_call_failure_propagates "/mnt" sampleConfig sampleEnv onlySanityFails
    [Event.installerCreated "/mnt" sampleConfig.disk_config
        sampleConfig.disk_encryption ["linux-hardened"],
     Event.mountOrderedLayout]
    Event.sanityCheck
    ((performInstallation "/mnt" sampleConfig sampleEnv).1.drop 3)
    (by decide) (by decide) (by decide) (by decide)

theorem topPhase_map_install_pairwise (l : List Event) :
    (l.map TopEvent.install).Pairwise (fun a b => topPhase a ≤ topPhase b) := by
  induction l with
  | nil => exact List.Pairwise.nil
  | cons e rest ih =>
      refine List.Pairwise.cons ?_ ih
      intro b hb
      rcases List.mem_map.mp hb with ⟨x, _, rfl⟩
      exact le_refl 2

/-- C6: the phases of the script are strictly ordered: along the whole
top-level trace, every configuration-capture action precedes the
filesystem-preparation call, which precedes every installation call; the
phase rank never decreases. -/
theorem phases_strictly_ordered (mountpoint : String) (cfg : Config) (env : Env) :
    (script mountpoint cfg env).Pairwise (fun a b => topPhase a ≤ topPhase b) := by
  unfold script
  rw [List.append_assoc, List.pairwise_append]
  refine ⟨?_, ?_, ?_⟩
  · decide
  · rw [List.pairwise_append]
    refine ⟨List.pairwise_singleton _ _, topPhase_map_install_pairwise _, ?_⟩
    intro a ha b hb
    rcases List.mem_singleton.mp ha with rfl
    rcases List.mem_map.mp hb with ⟨x, _, rfl⟩
    exact Nat.le_succ 1
  · intro a ha b _
    have h0 : ∀ x ∈ askUserQuestionsEvents, topPhase x = 0 := by decide
    rw [h0 a ha]
    exact Nat.zero_le _

end InstallerScript
